import Mathlib

/-!
Shallow embedding of the Geom3D repository (src/geom3d/pl_model.py and
src/geom3d/train_models.py) and verification of its specification.

The repository is configuration glue: a factory `model_setup` dispatching a
configuration dictionary to one of five external model constructors, a
Lightning adapter `Pymodel` computing a mean-squared-error loss, and a driver
`main` wiring checkpoint resumption.  External collaborators (the model
classes, `torch.nn.Linear` construction, the trainer loop, logging) are
treated as opaque, per the specification: an instance of an external class is
represented by a symbolic value recording the constructor and the keyword
arguments it was invoked with.  Configuration values are modelled as integers
(`Int`); the factory passes them verbatim, so their carrier type is
immaterial.  Tensors are modelled as a shape together with flat rational
data, so that loss arithmetic is exact.
-/

/-- A configuration record, as consumed by `model_setup` and `main`.
`model` is the nested per-architecture hyperparameter mapping
(`config["model"]`), modelled as a total lookup from key strings to values
(missing-key failures are out of scope per the specification). -/
structure Config where
  model_name : String
  model : String → Int
  seed : Int
  device : String
  running_dir : String
  pl_model_chkpt : String
  model_path : String
  name : String
  target_name : String
  max_epochs : Nat

/-- A symbolic instance of one of the five external model classes imported
from `geom3d.models`.  Each constructor records exactly the keyword arguments
the source passes, in source order.  (`SphereNet`'s `energy_and_force` is the
literal `False` in the source, hence `Bool` here.) -/
inductive Model where
  | SchNet (hidden_channels num_filters num_interactions num_gaussians
      cutoff readout node_class : Int)
  | DimeNet (node_class hidden_channels out_channels num_blocks num_bilinear
      num_spherical num_radial cutoff envelope_exponent num_before_skip
      num_after_skip num_output_layers : Int)
  | DimeNetPlusPlus (node_class hidden_channels out_channels num_blocks
      int_emb_size basis_emb_size out_emb_channels num_spherical num_radial
      cutoff envelope_exponent num_before_skip num_after_skip
      num_output_layers : Int)
  | GemNet (node_class num_targets num_blocks emb_size_atom emb_size_edge
      emb_size_trip emb_size_quad emb_size_rbf emb_size_cbf emb_size_sbf
      emb_size_bil_quad emb_size_bil_trip num_concat num_atom triplets_only
      direct_forces extensive forces_coupled cutoff int_cutoff
      envelope_exponent num_spherical num_radial num_before_skip
      num_after_skip : Int)
  | SphereNet (energy_and_force : Bool)
      (hidden_channels out_channels cutoff num_layers int_emb_size
      basis_emb_size_dist basis_emb_size_angle basis_emb_size_torsion
      out_emb_channels num_spherical num_radial envelope_exponent
      num_before_skip num_after_skip num_output_layers : Int)
  deriving DecidableEq

/-- The name of the external class a symbolic `Model` value is an instance
of. -/
def Model.className : Model → String
  | .SchNet .. => "SchNet"
  | .DimeNet .. => "DimeNet"
  | .DimeNetPlusPlus .. => "DimeNetPlusPlus"
  | .GemNet .. => "GemNet"
  | .SphereNet .. => "SphereNet"

/-- A symbolic instance of `torch.nn.Linear`, recording the two positional
constructor arguments the factory passes (`in_features`, `out_features`).
The externally owned parameter initialisation is opaque, so it is not part
of the symbolic value. -/
structure TorchLinear where
  in_features : Int
  out_features : Int
  deriving DecidableEq

namespace pl_model

/-- `model_setup` from src/geom3d/pl_model.py (lines 54-159): dictionary
dispatch from `config["model_name"]` to one of five external constructors.
The `raise ValueError("Invalid model name")` branch is the `Except.error`
case. -/
def model_setup (config : Config) : Except String (Model × Option TorchLinear) :=
  let model_config := config.model
  if config.model_name = "SchNet" then
    Except.ok
      (Model.SchNet (model_config "emb_dim") (model_config "SchNet_num_filters")
        (model_config "SchNet_num_interactions") (model_config "SchNet_num_gaussians")
        (model_config "SchNet_cutoff") (model_config "SchNet_readout")
        (model_config "node_class"),
       some (TorchLinear.mk (model_config "emb_dim") (model_config "num_tasks")))
  else if config.model_name = "DimeNet" then
    Except.ok
      (Model.DimeNet (model_config "node_class") (model_config "hidden_channels")
        (model_config "out_channels") (model_config "num_blocks")
        (model_config "num_bilinear") (model_config "num_spherical")
        (model_config "num_radial") (model_config "cutoff")
        (model_config "envelope_exponent") (model_config "num_before_skip")
        (model_config "num_after_skip") (model_config "num_output_layers"),
       none)
  else if config.model_name = "DimeNetPlusPlus" then
    Except.ok
      (Model.DimeNetPlusPlus (model_config "node_class") (model_config "hidden_channels")
        (model_config "out_channels") (model_config "num_blocks")
        (model_config "int_emb_size") (model_config "basis_emb_size")
        (model_config "out_emb_channels") (model_config "num_spherical")
        (model_config "num_radial") (model_config "cutoff")
        (model_config "envelope_exponent") (model_config "num_before_skip")
        (model_config "num_after_skip") (model_config "num_output_layers"),
       none)
  else if config.model_name = "GemNet" then
    Except.ok
      (Model.GemNet (model_config "node_class") (model_config "num_targets")
        (model_config "num_blocks") (model_config "emb_size_atom")
        (model_config "emb_size_edge") (model_config "emb_size_trip")
        (model_config "emb_size_quad") (model_config "emb_size_rbf")
        (model_config "emb_size_cbf") (model_config "emb_size_sbf")
        (model_config "emb_size_bil_quad") (model_config "emb_size_bil_trip")
        (model_config "num_concat") (model_config "num_atom")
        (model_config "triplets_only") (model_config "direct_forces")
        (model_config "extensive") (model_config "forces_coupled")
        (model_config "cutoff") (model_config "int_cutoff")
        (model_config "envelope_exponent") (model_config "num_spherical")
        (model_config "num_radial") (model_config "num_before_skip")
        (model_config "num_after_skip"),
       none)
  else if config.model_name = "SphereNet" then
    Except.ok
      (Model.SphereNet false (model_config "hidden_channels")
        (model_config "out_channels") (model_config "cutoff")
        (model_config "num_layers") (model_config "int_emb_size")
        (model_config "basis_emb_size_dist") (model_config "basis_emb_size_angle")
        (model_config "basis_emb_size_torsion") (model_config "out_emb_channels")
        (model_config "num_spherical") (model_config "num_radial")
        (model_config "envelope_exponent") (model_config "num_before_skip")
        (model_config "num_after_skip") (model_config "num_output_layers"),
       none)
  else
    Except.error "Invalid model name"

end pl_model

namespace train_models

/-- `model_setup` from src/geom3d/train_models.py (lines 84-189).  The source
text is line-for-line the same as the copy in pl_model.py (the only
difference is trailing whitespace on a blank line), so the embedding is the
same dispatch. -/
def model_setup (config : Config) : Except String (Model × Option TorchLinear) :=
  let model_config := config.model
  if config.model_name = "SchNet" then
    Except.ok
      (Model.SchNet (model_config "emb_dim") (model_config "SchNet_num_filters")
        (model_config "SchNet_num_interactions") (model_config "SchNet_num_gaussians")
        (model_config "SchNet_cutoff") (model_config "SchNet_readout")
        (model_config "node_class"),
       some (TorchLinear.mk (model_config "emb_dim") (model_config "num_tasks")))
  else if config.model_name = "DimeNet" then
    Except.ok
      (Model.DimeNet (model_config "node_class") (model_config "hidden_channels")
        (model_config "out_channels") (model_config "num_blocks")
        (model_config "num_bilinear") (model_config "num_spherical")
        (model_config "num_radial") (model_config "cutoff")
        (model_config "envelope_exponent") (model_config "num_before_skip")
        (model_config "num_after_skip") (model_config "num_output_layers"),
       none)
  else if config.model_name = "DimeNetPlusPlus" then
    Except.ok
      (Model.DimeNetPlusPlus (model_config "node_class") (model_config "hidden_channels")
        (model_config "out_channels") (model_config "num_blocks")
        (model_config "int_emb_size") (model_config "basis_emb_size")
        (model_config "out_emb_channels") (model_config "num_spherical")
        (model_config "num_radial") (model_config "cutoff")
        (model_config "envelope_exponent") (model_config "num_before_skip")
        (model_config "num_after_skip") (model_config "num_output_layers"),
       none)
  else if config.model_name = "GemNet" then
    Except.ok
      (Model.GemNet (model_config "node_class") (model_config "num_targets")
        (model_config "num_blocks") (model_config "emb_size_atom")
        (model_config "emb_size_edge") (model_config "emb_size_trip")
        (model_config "emb_size_quad") (model_config "emb_size_rbf")
        (model_config "emb_size_cbf") (model_config "emb_size_sbf")
        (model_config "emb_size_bil_quad") (model_config "emb_size_bil_trip")
        (model_config "num_concat") (model_config "num_atom")
        (model_config "triplets_only") (model_config "direct_forces")
        (model_config "extensive") (model_config "forces_coupled")
        (model_config "cutoff") (model_config "int_cutoff")
        (model_config "envelope_exponent") (model_config "num_spherical")
        (model_config "num_radial") (model_config "num_before_skip")
        (model_config "num_after_skip"),
       none)
  else if config.model_name = "SphereNet" then
    Except.ok
      (Model.SphereNet false (model_config "hidden_channels")
        (model_config "out_channels") (model_config "cutoff")
        (model_config "num_layers") (model_config "int_emb_size")
        (model_config "basis_emb_size_dist") (model_config "basis_emb_size_angle")
        (model_config "basis_emb_size_torsion") (model_config "out_emb_channels")
        (model_config "num_spherical") (model_config "num_radial")
        (model_config "envelope_exponent") (model_config "num_before_skip")
        (model_config "num_after_skip") (model_config "num_output_layers"),
       none)
  else
    Except.error "Invalid model name"

end train_models

/-- A tensor: a shape together with flat data in row-major order.  Data is
rational so that the loss arithmetic is exact. -/
structure Tensor where
  shape : List Nat
  data : List ℚ
  deriving DecidableEq

/-- `Tensor.unsqueeze(1)`: insert a new axis of size 1 at position 1, data
unchanged.  The adapter only applies it to the 1-D target tensor `y`, where
it turns shape `[n]` into `[n, 1]`. -/
def Tensor.unsqueeze1 (t : Tensor) : Tensor :=
  { shape := t.shape.take 1 ++ 1 :: t.shape.drop 1, data := t.data }

/-- `Tensor.squeeze()`: remove every axis of size 1, data unchanged. -/
def Tensor.squeeze (t : Tensor) : Tensor :=
  { shape := t.shape.filter (fun d => d != 1), data := t.data }

namespace Functional

/-- `torch.nn.functional.mse_loss` with the default mean reduction: the mean
of the elementwise squared differences.  The adapter only calls it on
equal-shaped input and target; the shape-mismatch broadcasting path of the
external library is out of scope and is modelled as `none`. -/
def mse_loss (input target : Tensor) : Option ℚ :=
  if input.shape = target.shape then
    some ((((input.data.zip target.data).map fun p => (p.1 - p.2) ^ 2).sum)
      / (input.data.length : ℚ))
  else
    none

end Functional

/-- A semantic `torch.nn.Linear` module: a weight matrix (rows are output
features) and a bias vector, as used by the adapter when it applies the
projection head to a tensor. -/
structure LinearModule where
  weight : List (List ℚ)
  bias : List ℚ

/-- Number of input features of a linear module. -/
def LinearModule.in_features (l : LinearModule) : Nat :=
  (l.weight.headD []).length

/-- Number of output features of a linear module. -/
def LinearModule.out_features (l : LinearModule) : Nat :=
  l.weight.length

/-- Sum of pairwise products of two vectors. -/
def dotProduct (xs ys : List ℚ) : ℚ :=
  ((xs.zip ys).map fun p => p.1 * p.2).sum

/-- Applying `torch.nn.Linear` to a tensor whose last axis holds the input
features: each row is mapped affinely, and the last axis becomes the output
features. -/
def LinearModule.apply (l : LinearModule) (t : Tensor) : Tensor :=
  { shape := t.shape.dropLast ++ [l.out_features]
  , data := (t.data.toChunks l.in_features).flatMap fun row =>
      (l.weight.zip l.bias).map fun wb => dotProduct wb.1 row + wb.2 }

/-- A batch, with the four fields the adapter reads: node features `x`, 3D
`positions`, the graph-assignment index `batch`, and the target `y`. -/
structure Batch where
  x : Tensor
  positions : Tensor
  batch : Tensor
  y : Tensor

/-- The trainer adapter from src/geom3d/pl_model.py.  `molecule_3D_repr` is
the wrapped external model, opaque to this repository, hence a function on
tensors; `graph_pred_linear` is the optional projection head.  The
`save_hyperparameters` call and the `self.log` calls are external
logging side effects with no influence on the returned values, and are not
modelled. -/
structure Pymodel where
  molecule_3D_repr : Tensor → Tensor → Tensor → Tensor
  graph_pred_linear : Option LinearModule

/-- `Pymodel._get_preds_loss_accuracy` (lines 29-42): with a projection head
the model output is passed through the head and compared against
`y.unsqueeze(1)`; without a head the model output is squeezed and compared
against `y`. -/
def Pymodel._get_preds_loss_accuracy (m : Pymodel) (batch : Batch) : Option ℚ :=
  match m.graph_pred_linear with
  | some head =>
      let z := m.molecule_3D_repr batch.x batch.positions batch.batch
      let z := head.apply z
      Functional.mse_loss z batch.y.unsqueeze1
  | none =>
      let z := (m.molecule_3D_repr batch.x batch.positions batch.batch).squeeze
      Functional.mse_loss z batch.y

/-- `Pymodel.training_step` (lines 14-19): computes the loss, logs it
(external side effect, not modelled), and returns it. -/
def Pymodel.training_step (m : Pymodel) (batch : Batch) (batch_idx : Nat) : Option ℚ :=
  m._get_preds_loss_accuracy batch

/-- `Pymodel.validation_step` (lines 21-27): computes the loss, logs it
(external side effect, not modelled), and returns it. -/
def Pymodel.validation_step (m : Pymodel) (batch : Batch) (batch_idx : Nat) : Option ℚ :=
  m._get_preds_loss_accuracy batch

/-- A symbolic `torch.optim.Adam` optimizer as constructed by
`configure_optimizers`: it records the module whose parameters it optimizes
(`self.parameters()`) and the learning rate. -/
structure AdamOptimizer where
  module : Pymodel
  lr : ℚ

/-- `Pymodel.configure_optimizers` (lines 44-46): a single Adam optimizer
over the adapter's parameters with learning rate `5e-4`. -/
def Pymodel.configure_optimizers (m : Pymodel) : AdamOptimizer :=
  { module := m, lr := 5 / 10000 }

/-- `Pymodel.forward` (lines 48-51): runs the wrapped model and then applies
`self.graph_pred_linear` unconditionally.  When `graph_pred_linear` is
`None`, the Python call `self.graph_pred_linear(z)` raises a `TypeError`;
this failure is the `none` case. -/
def Pymodel.forward (m : Pymodel) (batch : Batch) : Option Tensor :=
  let z := m.molecule_3D_repr batch.x batch.positions batch.batch
  match m.graph_pred_linear with
  | some head => some (head.apply z)
  | none => none

/-- How the driver obtains its adapter: either restored from a checkpoint
file or freshly constructed from the factory's output. -/
inductive PymodelSource where
  | load_from_checkpoint (path : String)
  | fresh_construction (model : Model) (graph_pred_linear : Option TorchLinear)
  deriving DecidableEq

/-- The checkpoint-resumption branch of `main` in src/geom3d/train_models.py
(lines 44-47).  `path_exists` is the `os.path.exists` filesystem oracle,
passed explicitly. -/
def main_select_pymodel (path_exists : String → Bool) (config : Config)
    (model : Model) (graph_pred_linear : Option TorchLinear) : PymodelSource :=
  if path_exists config.pl_model_chkpt then
    PymodelSource.load_from_checkpoint config.pl_model_chkpt
  else
    PymodelSource.fresh_construction model graph_pred_linear

/-- The mean of the squared differences of two flat data vectors: the
specification's "mean-squared error". -/
def meanSquaredError (pred target : List ℚ) : ℚ :=
  ((pred.zip target).map fun p => (p.1 - p.2) ^ 2).sum / (pred.length : ℚ)

/-- Concrete configuration used to instantiate theorems at "SchNet". -/
def cfgSchNet : Config :=
  { model_name := "SchNet", model := fun _ => 0, seed := 0, device := "cpu",
    running_dir := "run", pl_model_chkpt := "model.ckpt", model_path := "",
    name := "exp", target_name := "y", max_epochs := 1 }

/-- The same configuration with a different seed (all factory-relevant fields
equal). -/
def cfgSchNet2 : Config := { cfgSchNet with seed := 1 }

/-- Concrete configuration used to instantiate theorems at "DimeNet". -/
def cfgDime : Config := { cfgSchNet with model_name := "DimeNet" }

/-- Concrete configuration with an unrecognized model name. -/
def cfgBad : Config := { cfgSchNet with model_name := "Transformer" }

/-- The factory's output on `cfgDime`. -/
def dimeResult : Model × Option TorchLinear :=
  (Model.DimeNet 0 0 0 0 0 0 0 0 0 0 0 0, none)

/-- A concrete symbolic model instance. -/
def exModel : Model := Model.SchNet 0 0 0 0 0 0 0

/-- Concrete output of the wrapped model used in example adapters: an
embedding of shape `[2, 1]`. -/
def reprOut : Tensor := { shape := [2, 1], data := [3, 5] }

/-- Concrete batch with two graphs and a target vector of shape `[2]`. -/
def exBatch : Batch :=
  { x := { shape := [2], data := [0, 0] },
    positions := { shape := [2, 3], data := [0, 0, 0, 0, 0, 0] },
    batch := { shape := [2], data := [0, 0] },
    y := { shape := [2], data := [1, 2] } }

/-- Concrete projection head: one input feature, one output feature. -/
def lW : LinearModule := { weight := [[2]], bias := [1] }

/-- Concrete adapter in the with-head configuration. -/
def pmHead : Pymodel :=
  { molecule_3D_repr := fun _ _ _ => reprOut, graph_pred_linear := some lW }

/-- Concrete adapter in the without-head configuration. -/
def pmNoHead : Pymodel :=
  { molecule_3D_repr := fun _ _ _ => reprOut, graph_pred_linear := none }

/-- The five supported model-name strings, in source branch order. -/
def supportedModelNames : List String :=
  ["SchNet", "DimeNet", "DimeNetPlusPlus", "GemNet", "SphereNet"]

/-- Helper: any value `mse_loss` returns is non-negative. -/
theorem mse_loss_nonneg (z t : Tensor) (q : ℚ)
    (h : Functional.mse_loss z t = some q) : 0 ≤ q := by
  unfold Functional.mse_loss at h
  split at h
  · injection h with h2
    subst h2
    apply div_nonneg
    · apply List.sum_nonneg
      intro x hx
      simp only [List.mem_map] at hx
      obtain ⟨p, _, rfl⟩ := hx
      positivity
    · positivity
  · exact absurd h (by simp)

/-- C1: for every configuration whose `model_name` is one of the five
supported strings, `model_setup` returns a pair whose first component is an
instance of the correspondingly named external class, and whose second
component is a linear layer if and only if the name is "SchNet" (for the
other four names it is `None`); for "SchNet" the layer maps `emb_dim` to
`num_tasks`. -/
theorem model_setup_supported_names (c : Config)
    (h : c.model_name ∈ supportedModelNames) :
    ∃ m gpl, pl_model.model_setup c = Except.ok (m, gpl) ∧
      m.className = c.model_name ∧
      (gpl.isSome ↔ c.model_name = "SchNet") ∧
      (c.model_name = "SchNet" →
        gpl = some (TorchLinear.mk (c.model "emb_dim") (c.model "num_tasks"))) := by
  simp only [supportedModelNames, List.mem_cons, List.not_mem_nil, or_false] at h
  rcases h with h | h | h | h | h
  all_goals
    simp only [pl_model.model_setup, h, reduceIte]
  all_goals
    exact ⟨_, _, rfl, rfl, by simp, by simp⟩

/-- C1 witness: the theorem instantiated at a concrete "SchNet"
configuration. -/
theorem model_setup_supported_names_witness :
    cfgSchNet.model_name ∈ supportedModelNames ∧
    ∃ m gpl, pl_model.model_setup cfgSchNet = Except.ok (m, gpl) ∧
      m.className = cfgSchNet.model_name ∧
      (gpl.isSome ↔ cfgSchNet.model_name = "SchNet") ∧
      (cfgSchNet.model_name = "SchNet" →
        gpl = some (TorchLinear.mk (cfgSchNet.model "emb_dim") (cfgSchNet.model "num_tasks"))) :=
  ⟨by decide, model_setup_supported_names cfgSchNet (by decide)⟩

/-- C2: for every configuration whose `model_name` is not one of the five
supported strings, both copies of `model_setup` raise
`ValueError("Invalid model name")` and return no value. -/
theorem model_setup_invalid_name (c : Config)
    (h : c.model_name ∉ supportedModelNames) :
    pl_model.model_setup c = Except.error "Invalid model name" ∧
    train_models.model_setup c = Except.error "Invalid model name" := by
  simp only [supportedModelNames, List.mem_cons, List.not_mem_nil, or_false,
    not_or] at h
  obtain ⟨h1, h2, h3, h4, h5⟩ := h
  constructor <;>
    simp [pl_model.model_setup, train_models.model_setup, h1, h2, h3, h4, h5]

/-- C2 witness: the theorem instantiated at a concrete unrecognized model
name. -/
theorem model_setup_invalid_name_witness :
    cfgBad.model_name ∉ supportedModelNames ∧
    pl_model.model_setup cfgBad = Except.error "Invalid model name" ∧
    train_models.model_setup cfgBad = Except.error "Invalid model name" :=
  ⟨by decide, (model_setup_invalid_name cfgBad (by decide)).1,
    (model_setup_invalid_name cfgBad (by decide)).2⟩

/-- C8: `model_setup` is a pure function of the configuration record: its
result depends only on the `model_name` and `model` fields it reads, so two
invocations on configurations agreeing there (in particular, on equal
configurations) yield equal results; there is no other input. -/
theorem model_setup_deterministic (c1 c2 : Config)
    (hname : c1.model_name = c2.model_name) (hmodel : c1.model = c2.model) :
    pl_model.model_setup c1 = pl_model.model_setup c2 := by
  simp only [pl_model.model_setup, hname, hmodel]

/-- C8 witness: two configurations differing only in `seed` give equal
factory outputs. -/
theorem model_setup_deterministic_witness :
    (cfgSchNet.model_name = cfgSchNet2.model_name ∧ cfgSchNet.model = cfgSchNet2.model) ∧
    pl_model.model_setup cfgSchNet = pl_model.model_setup cfgSchNet2 :=
  ⟨⟨rfl, rfl⟩, model_setup_deterministic cfgSchNet cfgSchNet2 rfl rfl⟩

/-- C10: the two textually duplicated definitions of `model_setup`, in
pl_model.py and train_models.py, are extensionally equal: on every
configuration they return the same pair and they fail on exactly the same
inputs. -/
theorem model_setup_definitions_agree :
    ∀ c : Config, pl_model.model_setup c = train_models.model_setup c :=
  fun _ => rfl

/-- C3: the adapter's loss is the mean-squared error of the model's
predictions against the target `y`, and the two head configurations differ
only in output-shape handling: with a head, the model output passed through
the head is compared against `y.unsqueeze(1)`; without a head, the squeezed
model output is compared against `y` unchanged.  When the shapes conform,
the loss is literally the mean of the squared differences of the prediction
data and the target data. -/
theorem get_preds_loss_is_mse (m : Pymodel) (b : Batch) :
    (∀ head, m.graph_pred_linear = some head →
      m._get_preds_loss_accuracy b =
        Functional.mse_loss
          (head.apply (m.molecule_3D_repr b.x b.positions b.batch))
          b.y.unsqueeze1 ∧
      ((head.apply (m.molecule_3D_repr b.x b.positions b.batch)).shape =
          b.y.unsqueeze1.shape →
        m._get_preds_loss_accuracy b =
          some (meanSquaredError
            (head.apply (m.molecule_3D_repr b.x b.positions b.batch)).data
            b.y.data))) ∧
    (m.graph_pred_linear = none →
      m._get_preds_loss_accuracy b =
        Functional.mse_loss
          (m.molecule_3D_repr b.x b.positions b.batch).squeeze b.y ∧
      ((m.molecule_3D_repr b.x b.positions b.batch).squeeze.shape = b.y.shape →
        m._get_preds_loss_accuracy b =
          some (meanSquaredError
            (m.molecule_3D_repr b.x b.positions b.batch).squeeze.data
            b.y.data))) := by
  constructor
  · intro head hh
    refine ⟨by simp [Pymodel._get_preds_loss_accuracy, hh], fun hs => ?_⟩
    simp [Pymodel._get_preds_loss_accuracy, hh, Functional.mse_loss, hs,
      meanSquaredError, Tensor.unsqueeze1]
  · intro hh
    refine ⟨by simp [Pymodel._get_preds_loss_accuracy, hh], fun hs => ?_⟩
    simp [Pymodel._get_preds_loss_accuracy, hh, Functional.mse_loss, hs,
      meanSquaredError]

/-- C3 witness: the theorem instantiated at a concrete with-head adapter and
batch, where the loss evaluates to `117/2`. -/
theorem get_preds_loss_is_mse_witness :
    pmHead.graph_pred_linear = some lW ∧
    pmHead._get_preds_loss_accuracy exBatch =
      Functional.mse_loss
        (lW.apply (pmHead.molecule_3D_repr exBatch.x exBatch.positions exBatch.batch))
        exBatch.y.unsqueeze1 ∧
    pmHead._get_preds_loss_accuracy exBatch = some (117 / 2) := by
  refine ⟨rfl, ((get_preds_loss_is_mse pmHead exBatch).1 lW rfl).1, ?_⟩
  simp [Pymodel._get_preds_loss_accuracy, pmHead, reprOut, exBatch, lW,
    LinearModule.apply, LinearModule.in_features, LinearModule.out_features,
    dotProduct, List.toChunks, List.toChunks.go, Tensor.unsqueeze1,
    Functional.mse_loss]
  norm_num

/-- C4 counterexample: the claim asserts that a forward pass produces a
shape-matching prediction tensor in the without-head configuration as well,
but `Pymodel.forward` applies `self.graph_pred_linear` unconditionally, so
at the concrete without-head adapter and batch it produces no prediction
tensor at all (the Python call raises a `TypeError`). -/
theorem forward_no_head_counterexample :
    pmNoHead.forward exBatch = none ∧
    ¬ ∃ t : Tensor, pmNoHead.forward exBatch = some t ∧
        t.shape = exBatch.y.shape := by
  refine ⟨rfl, ?_⟩
  rintro ⟨t, ht, -⟩
  exact Option.noConfusion ht

/-- C4 amended: in the with-head configuration — the only one in which
`forward` returns — whenever the wrapped model produces a 2-D embedding, the
head has one output feature, and the target is the matching 1-D vector, the
forward pass produces a prediction tensor whose shape equals the target's
shape after the documented `unsqueeze(1)` handling. -/
theorem forward_shape_with_head (m : Pymodel) (b : Batch)
    (head : LinearModule) (n d : Nat)
    (hh : m.graph_pred_linear = some head)
    (hz : (m.molecule_3D_repr b.x b.positions b.batch).shape = [n, d])
    (hout : head.out_features = 1)
    (hy : b.y.shape = [n]) :
    ∃ t, m.forward b = some t ∧ t.shape = b.y.unsqueeze1.shape := by
  have hf : m.forward b =
      some (head.apply (m.molecule_3D_repr b.x b.positions b.batch)) := by
    simp [Pymodel.forward, hh]
  refine ⟨_, hf, ?_⟩
  simp [LinearModule.apply, hz, hout, Tensor.unsqueeze1, hy]

/-- C4 witness: the amended theorem instantiated at the concrete with-head
adapter and batch. -/
theorem forward_shape_with_head_witness :
    pmHead.graph_pred_linear = some lW ∧
    (pmHead.molecule_3D_repr exBatch.x exBatch.positions exBatch.batch).shape = [2, 1] ∧
    lW.out_features = 1 ∧
    exBatch.y.shape = [2] ∧
    ∃ t, pmHead.forward exBatch = some t ∧ t.shape = exBatch.y.unsqueeze1.shape :=
  ⟨rfl, rfl, rfl, rfl, forward_shape_with_head pmHead exBatch lW 2 1 rfl rfl rfl rfl⟩

/-- C5: whenever `training_step` or `validation_step` returns a loss value,
that value is a single non-negative scalar (a mean of squared differences in
exact rational arithmetic). -/
theorem step_loss_nonneg (m : Pymodel) (b : Batch) (i : Nat) (q : ℚ) :
    (m.training_step b i = some q → 0 ≤ q) ∧
    (m.validation_step b i = some q → 0 ≤ q) := by
  have key : m._get_preds_loss_accuracy b = some q → 0 ≤ q := by
    intro h
    unfold Pymodel._get_preds_loss_accuracy at h
    split at h
    · exact mse_loss_nonneg _ _ _ h
    · exact mse_loss_nonneg _ _ _ h
  exact ⟨key, key⟩

/-- C5 witness: the theorem instantiated at the concrete without-head
adapter, where both steps return the loss `13/2`. -/
theorem step_loss_nonneg_witness :
    pmNoHead.training_step exBatch 0 = some (13 / 2) ∧
    pmNoHead.validation_step exBatch 0 = some (13 / 2) ∧
    (0 : ℚ) ≤ 13 / 2 := by
  have h : pmNoHead._get_preds_loss_accuracy exBatch = some (13 / 2) := by
    simp [Pymodel._get_preds_loss_accuracy, pmNoHead, reprOut, exBatch,
      Tensor.squeeze, Functional.mse_loss]
    norm_num
  exact ⟨h, h, (step_loss_nonneg pmNoHead exBatch 0 (13 / 2)).1 h⟩

/-- C6: in the driver, if the configured checkpoint path exists the adapter
is restored from it via `Pymodel.load_from_checkpoint`; otherwise a fresh
adapter `Pymodel(model, graph_pred_linear)` is constructed from the
factory's output. -/
theorem checkpoint_resumption (path_exists : String → Bool) (config : Config)
    (model : Model) (gpl : Option TorchLinear) :
    (path_exists config.pl_model_chkpt = true →
      main_select_pymodel path_exists config model gpl =
        PymodelSource.load_from_checkpoint config.pl_model_chkpt) ∧
    (path_exists config.pl_model_chkpt = false →
      main_select_pymodel path_exists config model gpl =
        PymodelSource.fresh_construction model gpl) := by
  constructor <;> intro h <;> simp [main_select_pymodel, h]

/-- C6 witness: the theorem instantiated with an oracle under which the
checkpoint exists. -/
theorem checkpoint_resumption_witness :
    (fun _ : String => true) cfgSchNet.pl_model_chkpt = true ∧
    main_select_pymodel (fun _ => true) cfgSchNet exModel none =
      PymodelSource.load_from_checkpoint cfgSchNet.pl_model_chkpt :=
  ⟨rfl, (checkpoint_resumption (fun _ => true) cfgSchNet exModel none).1 rfl⟩

/-- C7: `configure_optimizers` always returns exactly one optimizer (its
return type is a single `AdamOptimizer`), constructed over the adapter's own
parameters, with the fixed learning rate `5e-4`, independent of the
adapter. -/
theorem configure_optimizers_fixed_lr (m : Pymodel) :
    m.configure_optimizers.module = m ∧
    m.configure_optimizers.lr = 5 / 10000 ∧
    ∀ m2 : Pymodel, m.configure_optimizers.lr = m2.configure_optimizers.lr :=
  ⟨rfl, rfl, fun _ => rfl⟩

/-- C9: `Pymodel.forward` applies the projection head unconditionally, so it
returns a value exactly when `graph_pred_linear` is present; and for every
configuration the factory accepts with a model name other than "SchNet" the
head it returns is `None`, so an adapter built from that output fails in
`forward`. -/
theorem forward_requires_head :
    (∀ (m : Pymodel) (b : Batch),
      (m.forward b).isSome ↔ m.graph_pred_linear.isSome) ∧
    (∀ (c : Config) (r : Model × Option TorchLinear),
      pl_model.model_setup c = Except.ok r → c.model_name ≠ "SchNet" →
        r.2 = none) := by
  constructor
  · intro m b
    unfold Pymodel.forward
    cases m.graph_pred_linear <;> simp
  · intro c r h hn
    simp only [pl_model.model_setup] at h
    repeat' split at h
    all_goals
      first
      | exact absurd (by assumption) hn
      | (injection h with h2; subst h2; rfl)
      | injection h

/-- C9 witness: the theorem instantiated at the concrete without-head
adapter and at a concrete "DimeNet" configuration. -/
theorem forward_requires_head_witness :
    ((pmNoHead.forward exBatch).isSome ↔ pmNoHead.graph_pred_linear.isSome) ∧
    pl_model.model_setup cfgDime = Except.ok dimeResult ∧
    cfgDime.model_name ≠ "SchNet" ∧
    dimeResult.2 = none :=
  ⟨forward_requires_head.1 pmNoHead exBatch, by rfl, by decide,
    forward_requires_head.2 cfgDime dimeResult (by rfl) (by decide)⟩
